import Mathlib

/-! Telemetry bootstrap and instrumented HTTP server.

A shallow embedding of `example1/otel.go` (`setupOTelSDK` and the shutdown
closure it returns) and `example1/main.go` (`main`, `handleFunc`).

The program is effectful, so the embedding threads an explicit `World`
through every operation.  Calls into packages outside the program (the
OpenTelemetry SDK, `net/http`, `log`, `os`) are recorded as events of the
world's trace, oldest first; whatever such a call returns is a parameter of
the model.
-/

namespace OTelExample

/-! ## Go values -/

/-- A Go `error` value: either an error made by a package outside the
program, known by its message, or the `*errors.joinError` built by
`errors.Join`. -/
inductive GoError where
  | prim (msg : String)
  | join (errs : List GoError)

mutual
/-- Decidable equality of errors, by recursion on both values. -/
def GoError.decEq : (a b : GoError) → Decidable (a = b)
  | .prim m, .prim n =>
      if h : m = n then isTrue (by rw [h]) else isFalse (fun h2 => h (by cases h2; rfl))
  | .prim _, .join _ => isFalse (fun h => by cases h)
  | .join _, .prim _ => isFalse (fun h => by cases h)
  | .join as, .join bs =>
      match GoError.decEqList as bs with
      | isTrue h => isTrue (by rw [h])
      | isFalse h => isFalse (fun h2 => h (by cases h2; rfl))
/-- Decidable equality of lists of errors. -/
def GoError.decEqList : (as bs : List GoError) → Decidable (as = bs)
  | [], [] => isTrue rfl
  | [], _ :: _ => isFalse (fun h => by cases h)
  | _ :: _, [] => isFalse (fun h => by cases h)
  | a :: as, b :: bs =>
      match GoError.decEq a b, GoError.decEqList as bs with
      | isTrue h, isTrue h2 => isTrue (by rw [h, h2])
      | isFalse h, _ => isFalse (fun h2 => h (by cases h2; rfl))
      | _, isFalse h => isFalse (fun h2 => h (by cases h2; rfl))
end

instance : DecidableEq GoError := GoError.decEq

mutual
/-- The `Error()` method.  For a `joinError` it is the text of the first
member followed, for each further member, by a newline and its text
(`errors.Join` never builds an empty `joinError`; the empty list is given the
empty text). -/
def GoError.Error : GoError → String
  | .prim m => m
  | .join [] => ""
  | .join (e :: es) => e.Error ++ GoError.ErrorRest es
/-- The loop of `joinError.Error` over `e.errs[1:]`. -/
def GoError.ErrorRest : List GoError → String
  | [] => ""
  | e :: es => "\n" ++ e.Error ++ GoError.ErrorRest es
end

mutual
/-- The messages of the primitive errors inside an error, left to right. -/
def GoError.leaves : GoError → List String
  | .prim m => [m]
  | .join es => GoError.leavesList es
/-- The primitive messages inside a list of errors, left to right. -/
def GoError.leavesList : List GoError → List String
  | [] => []
  | e :: es => e.leaves ++ GoError.leavesList es
end

/-- Library semantics (`errors.Join`): nil arguments are discarded; the
result is nil when every argument is nil, and otherwise a `joinError` holding
the non-nil arguments in order. -/
def errorsJoin (errs : List (Option GoError)) : Option GoError :=
  let n := (errs.filter Option.isSome).length
  if n = 0 then none else some (GoError.join (errs.filterMap id))

/-- The constant `time.Second`, in nanoseconds. -/
def timeSecond : Nat := 1000000000

/-- A `context.Context`: its identity and its deadline (a clock reading in
nanoseconds), if it has one. -/
structure Context where
  id : Nat
  deadline : Option Nat
deriving DecidableEq, Repr

/-- The context `context.Background()`: it has no deadline. -/
def contextBackground : Context := ⟨0, none⟩

/-- The effects the program has on the world outside it. -/
inductive Event where
  | resourceNew
  | setTextMapPropagator
  | stdouttraceNew
  | newTracerProvider (batchTimeout : Nat)
  | setTracerProvider (provider : String)
  | stdoutmetricNew
  | newMeterProvider (interval : Nat)
  | setMeterProvider (provider : String)
  | withTimeout (ctx : Context)
  | shutdownCall (recv : String) (ctx : Context) (result : Option GoError)
  | cancel (ctx : Context)
  | logPrintf (msg : String)
  | logFatalf (msg : String)
  | logPrintln (msg : String)
  | logFatal (msg : String)
  | osExit (code : Nat)
  | listenAndServe (addr : String)
  | spanStart (operation : String)
  | setRouteTag (route : String)
  | handlerCall (fn : String) (path : String)
  | notFound
  | redirect (location : String)
  | recordMetrics
  | spanEnd
deriving DecidableEq

/-- A value of type `func(context.Context) error` held in the registry: the
method value `recv.Shutdown`.  What the call returns, and how long it takes,
is decided outside the program: it may depend on the context passed, on the
clock and on everything that happened before. -/
structure ShutdownFn where
  recv : String
  run : Context → Nat → List Event → Option GoError × Nat

/-- The world the program runs in: the clock (nanoseconds), the number of
contexts made so far, the slice variables captured by closures (by address),
and the trace of effects, oldest first. -/
structure World where
  now : Nat
  nextCtx : Nat
  nextVar : Nat
  vars : Nat → List ShutdownFn
  trace : List Event

/-- Record an effect. -/
def World.emit (w : World) (e : Event) : World :=
  { w with trace := w.trace ++ [e] }

/-- Let `dt` nanoseconds pass. -/
def World.tick (w : World) (dt : Nat) : World :=
  { w with now := w.now + dt }

/-- Declare a slice variable (`var shutdownFns []func(context.Context) error`):
a fresh address holding the nil slice. -/
def World.declare (w : World) : Nat × World :=
  (w.nextVar,
   { w with nextVar := w.nextVar + 1,
            vars := fun a => if a = w.nextVar then [] else w.vars a })

/-- The statement `v = append(v, fn)` on the slice variable at address `ref`. -/
def World.append (w : World) (ref : Nat) (fn : ShutdownFn) : World :=
  { w with vars := fun a => if a = ref then w.vars ref ++ [fn] else w.vars a }

/-- Library semantics (`context.WithTimeout(parent, d)`): a new context whose
deadline is `d` after the current clock reading, or the parent's deadline
when that one is earlier. -/
def contextWithTimeout (parent : Context) (d : Nat) (w : World) : Context × World :=
  let deadline :=
    match parent.deadline with
    | some p => if p < w.now + d then p else w.now + d
    | none => w.now + d
  let ctx : Context := ⟨w.nextCtx + 1, some deadline⟩
  (ctx, { w with nextCtx := w.nextCtx + 1, trace := w.trace ++ [Event.withTimeout ctx] })

/-! ## `otel.go` -/

/-- The loop `for _, fn := range shutdownFns { err = errors.Join(err, fn(ctx)) }`
of the shutdown closure, over the slice read when the loop starts. -/
def shutdownLoop (ctx : Context) :
    List ShutdownFn → Option GoError → World → Option GoError × World
  | [], err, w => (err, w)
  | fn :: fns, err, w =>
      let r := fn.run ctx w.now w.trace
      let w1 := (w.tick r.2).emit (Event.shutdownCall fn.recv ctx r.1)
      shutdownLoop ctx fns (errorsJoin [err, r.1]) w1

/-- The value of the local variable `err` of the shutdown closure after its
loop, together with the world at that point. -/
def shutdownErr (ref : Nat) (w : World) : Option GoError × World :=
  let cw := contextWithTimeout contextBackground (5 * timeSecond) w
  shutdownLoop cw.1 (cw.2.vars ref) none cw.2

/-- The closure `shutdown` of `setupOTelSDK`, which captured the variable
`shutdownFns` at address `ref`.  The deferred `cancel()` runs when the body
returns. -/
def shutdown (ref : Nat) (w : World) : World :=
  let cw := contextWithTimeout contextBackground (5 * timeSecond) w
  let ew := shutdownLoop cw.1 (cw.2.vars ref) none cw.2
  let w3 :=
    match ew.1 with
    | some e =>
        ew.2.emit (Event.logPrintf ("OpenTelemetry shutdown encountered errors: " ++ e.Error))
    | none => ew.2
  w3.emit (Event.cancel cw.1)

/-- A value of type `func()` made from the closure literal of `setupOTelSDK`:
the address of the `shutdownFns` variable it captured. -/
structure ShutdownClosure where
  shutdownFns : Nat
deriving DecidableEq, Repr

/-- Call the closure. -/
def ShutdownClosure.invoke (c : ShutdownClosure) (w : World) : World :=
  shutdown c.shutdownFns w

/-- What the constructors and providers outside the program do: the error
returned by `resource.New`, by `stdouttrace.New` and by `stdoutmetric.New`
(nil on success), and the behaviour of `tp.Shutdown` and `mp.Shutdown`. -/
structure Env where
  resourceNew : Option GoError
  stdouttraceNew : Option GoError
  stdoutmetricNew : Option GoError
  tpShutdown : Context → Nat → List Event → Option GoError × Nat
  mpShutdown : Context → Nat → List Event → Option GoError × Nat

/-- The results `(func(), error)` of `setupOTelSDK`. -/
structure SetupResult where
  shutdown : Option ShutdownClosure
  err : Option GoError

/-- The function `setupOTelSDK`. -/
def setupOTelSDK (env : Env) (w : World) : SetupResult × World :=
  let d := w.declare
  let ref := d.1
  let shutdown : Option ShutdownClosure := some ⟨ref⟩
  let w1 := d.2.emit Event.resourceNew
  match env.resourceNew with
  | some e => (⟨shutdown, some e⟩, w1)
  | none =>
    let w2 := w1.emit Event.setTextMapPropagator
    let w3 := w2.emit Event.stdouttraceNew
    match env.stdouttraceNew with
    | some e => (⟨shutdown, some e⟩, w3)
    | none =>
      let w4 := w3.emit (Event.newTracerProvider timeSecond)
      let w5 := w4.emit (Event.setTracerProvider "tp")
      let w6 := w5.append ref ⟨"tp", env.tpShutdown⟩
      let w7 := w6.emit Event.stdoutmetricNew
      match env.stdoutmetricNew with
      | some e => (⟨shutdown, some e⟩, w7)
      | none =>
        let w8 := w7.emit (Event.newMeterProvider (3 * timeSecond))
        let w9 := w8.emit (Event.setMeterProvider "mp")
        let w10 := w9.append ref ⟨"mp", env.mpShutdown⟩
        (⟨shutdown, none⟩, w10)

/-! ## `main.go` -/

/-- An `http.Handler` value built by `main`: `http.HandlerFunc(fn)` for a
function of the program known by its name, or `otelhttp.WithRouteTag(route, h)`. -/
inductive Handler where
  | handlerFunc (fn : String)
  | withRouteTag (route : String) (h : Handler)
deriving DecidableEq

/-- A `*http.ServeMux`: the registered patterns with their handlers, in
registration order. -/
structure ServeMux where
  entries : List (String × Handler)

/-- The multiplexer `http.NewServeMux()`. -/
def NewServeMux : ServeMux := ⟨[]⟩

/-- Library semantics (`mux.Handle(pattern, handler)`): register the handler
under the pattern.  (`Handle` panics on a pattern that conflicts with a
registered one; the two patterns of `main` do not conflict.) -/
def ServeMux.Handle (mux : ServeMux) (pattern : String) (handler : Handler) : ServeMux :=
  ⟨mux.entries ++ [(pattern, handler)]⟩

/-- The patterns registered in a multiplexer. -/
def ServeMux.patterns (mux : ServeMux) : List String :=
  mux.entries.map Prod.fst

/-- The closure `handleFunc` of `main`, on the multiplexer it captured. -/
def handleFunc (pattern : String) (handlerFunc : String) (mux : ServeMux) : ServeMux :=
  let handler := Handler.withRouteTag pattern (Handler.handlerFunc handlerFunc)
  mux.Handle pattern handler

/-- The multiplexer of `main` after its two `handleFunc` calls. -/
def mainMux : ServeMux :=
  handleFunc "/rolldice/{player}" "rolldice" (handleFunc "/rolldice/" "rolldice" NewServeMux)

/-- The handler `otelhttp.NewHandler(handler, operation)`. -/
structure OtelHandler where
  handler : ServeMux
  operation : String

/-- The handler `main` passes to `http.ListenAndServe`. -/
def mainHandler : OtelHandler := ⟨mainMux, "/"⟩

/-- What the multiplexer decides for a request: it dispatches to the handler
registered under a pattern, it replies with a permanent redirect (to the
cleaned path, or to the path with a trailing slash), or it replies not
found. -/
inductive Routing where
  | matched (pattern : String)
  | redirect (location : String)
  | notFound
deriving DecidableEq

/-- The routing rule of the multiplexer, which belongs to `net/http`: given
the registered patterns and a request path, what the multiplexer decides. -/
abbrev Router := List String → String → Routing

/-- Serving a request with a handler.  `WithRouteTag` sets the route tag of
the current span and of the request's metric labels, then calls the handler
it wraps; a function of the program is called with the request. -/
def Handler.ServeHTTP : Handler → String → World → World
  | Handler.handlerFunc fn, path, w => w.emit (Event.handlerCall fn path)
  | Handler.withRouteTag route h, path, w => h.ServeHTTP path (w.emit (Event.setRouteTag route))

/-- Serving a request with the multiplexer: the handler registered under the
pattern the router chose, the redirect reply, or the not-found reply. -/
def ServeMux.ServeHTTP (router : Router) (mux : ServeMux) (path : String) (w : World) : World :=
  match router mux.patterns path with
  | Routing.matched p =>
      match mux.entries.lookup p with
      | some h => h.ServeHTTP path w
      | none => w.emit Event.notFound
  | Routing.redirect location => w.emit (Event.redirect location)
  | Routing.notFound => w.emit Event.notFound

/-- Serving a request with the `otelhttp` handler: a span named by the
operation is started, the wrapped multiplexer serves the request, the
request's measurements are recorded and the span is ended. -/
def OtelHandler.ServeHTTP (router : Router) (h : OtelHandler) (path : String) (w : World) :
    World :=
  let w1 := w.emit (Event.spanStart h.operation)
  let w2 := h.handler.ServeHTTP router path w1
  (w2.emit Event.recordMetrics).emit Event.spanEnd

/-- What is outside `main`: the environment of `setupOTelSDK`, the router of
`net/http`, the paths of the requests served before `http.ListenAndServe`
returns, and the error it returns. -/
structure MainEnv where
  setup : Env
  router : Router
  requests : List String
  listenErr : Option GoError

/-- Serve the requests one after the other. -/
def serveAll (router : Router) (h : OtelHandler) : List String → World → World
  | [], w => w
  | path :: paths, w => serveAll router h paths (h.ServeHTTP router path w)

/-- The call `http.ListenAndServe(addr, handler)`: it serves requests until the
listener fails and returns the listener's error. -/
def ListenAndServe (env : MainEnv) (addr : String) (h : OtelHandler) (w : World) :
    Option GoError × World :=
  (env.listenErr, serveAll env.router h env.requests (w.emit (Event.listenAndServe addr)))

/-- How a function body ends: it returns to its caller, or it ends the
process through `os.Exit`. -/
inductive Flow where
  | returned
  | exited (code : Nat)
deriving DecidableEq

/-- The text `fmt` prints for an `error` value. -/
def errorText : Option GoError → String
  | some e => e.Error
  | none => "<nil>"

/-- The body of `main`: how it ends, the calls it deferred (latest first) and
the world at that point.  `log.Fatalf` and `log.Fatal` print and then call
`os.Exit(1)`, so both ways out of the body end the process. -/
def mainBody (env : MainEnv) (w : World) : Flow × List ShutdownClosure × World :=
  let sw := setupOTelSDK env.setup w
  match sw.1.err with
  | some e =>
      (Flow.exited 1, [],
        (sw.2.emit (Event.logFatalf ("failed to set up OpenTelemetry: " ++ e.Error))).emit
          (Event.osExit 1))
  | none =>
      let deferred := sw.1.shutdown.toList
      let w1 := sw.2.emit (Event.logPrintln "Serving on :8080")
      let lw := ListenAndServe env ":8080" mainHandler w1
      (Flow.exited 1, deferred,
        (lw.2.emit (Event.logFatal (errorText lw.1))).emit (Event.osExit 1))

/-- Run the deferred calls of a function that returns, latest first. -/
def runDeferred : List ShutdownClosure → World → World
  | [], w => w
  | c :: cs, w => runDeferred cs (c.invoke w)

/-- The function `main` as the Go runtime runs it: deferred calls run when the
body returns; `os.Exit` ends the process at once and deferred calls are not
run. -/
def main (env : MainEnv) (w : World) : World :=
  let r := mainBody env w
  match r.1 with
  | Flow.returned => runDeferred r.2.1 r.2.2
  | Flow.exited _ => r.2.2

/-! ## A router for the patterns of `main` -/

/-- Split a path at every slash. -/
def splitOnSlash : List Char → List (List Char)
  | [] => [[]]
  | c :: cs =>
      if c = '/' then [] :: splitOnSlash cs
      else
        match splitOnSlash cs with
        | [] => [[c]]
        | s :: ss => (c :: s) :: ss

/-- The segments of a path or pattern that starts with a slash. -/
def segments (path : String) : List String :=
  ((splitOnSlash path.data).drop 1).map String.mk

/-- A segment of a pattern: a literal, a wildcard for one segment, or the
trailing slash that matches every remainder. -/
inductive PatSeg where
  | lit (s : String)
  | wild
  | rest
deriving DecidableEq

/-- Read the segments of a pattern: `{name}` is a wildcard, the empty
segment after a trailing slash matches the remainder. -/
def parsePattern (pattern : String) : List PatSeg :=
  (segments pattern).map fun s =>
    if s = "" then PatSeg.rest
    else if s.data.head? = some '{' ∧ s.data.getLast? = some '}' then PatSeg.wild
    else PatSeg.lit s

/-- Does the pattern match the segments of a path: a literal matches itself,
a wildcard one non-empty segment, the trailing slash any remainder. -/
def matchSegs : List PatSeg → List String → Bool
  | [], [] => true
  | [], _ :: _ => false
  | _ :: _, [] => false
  | PatSeg.rest :: _, _ :: _ => true
  | PatSeg.lit s :: ps, x :: xs => s == x && matchSegs ps xs
  | PatSeg.wild :: ps, x :: xs => x != "" && matchSegs ps xs

/-- The rank of a pattern segment: literals before wildcards before the
trailing slash. -/
def PatSeg.rank : PatSeg → Nat
  | PatSeg.lit _ => 2
  | PatSeg.wild => 1
  | PatSeg.rest => 0

/-- Is the first pattern more specific than the second, segment by segment. -/
def moreSpecific : List PatSeg → List PatSeg → Bool
  | [], _ => false
  | _ :: _, [] => true
  | a :: as, b :: bs =>
      if a.rank > b.rank then true
      else if a.rank < b.rank then false
      else moreSpecific as bs

/-- Library semantics (`net/http` patterns without method or host): among the
registered patterns that match the path, the most specific one. -/
def findPattern (patterns : List String) (path : String) : Option String :=
  (patterns.filter fun p => matchSegs (parsePattern p) (segments path)).foldl
    (fun best p =>
      match best with
      | none => some p
      | some b => if moreSpecific (parsePattern p) (parsePattern b) then some p else some b)
    none

/-- The segments of a cleaned path: empty segments and `.` are dropped, `..`
drops the segment before it.  The first argument holds the segments kept so
far, latest first. -/
def cleanSegs : List String → List String → List String
  | acc, [] => acc.reverse
  | acc, s :: ss =>
      if s = "" ∨ s = "." then cleanSegs acc ss
      else if s = ".." then cleanSegs (acc.drop 1) ss
      else cleanSegs (s :: acc) ss

/-- Library semantics (`cleanPath` of `net/http`): the cleaned path, which
keeps the trailing slash of the request path. -/
def cleanPath (path : String) : String :=
  let np := "/" ++ "/".intercalate (cleanSegs [] (segments path))
  if path.data.getLast? = some '/' ∧ np ≠ "/" then np ++ "/" else np

/-- Library semantics (`exactMatch` of `net/http`): a pattern found for a path
matches it exactly unless it ends in the trailing slash and stands for more
than the empty remainder. -/
def exactMatch (found : Option String) (path : String) : Bool :=
  match found with
  | none => false
  | some p =>
      if (parsePattern p).getLast? ≠ some PatSeg.rest then true
      else if path.data.getLast? ≠ some '/' then false
      else (parsePattern p).length == (path.data.filter fun c => c = '/').length

/-- Library semantics (`ServeMux` of `net/http`, for patterns without method
or host and requests other than `CONNECT`): the path is cleaned; a path with
no exact match whose extension by a slash has one is redirected there; an
unclean path is redirected to the cleaned one; otherwise the request goes to
the most specific matching pattern, or is not found. -/
def goRouter : Router := fun patterns path =>
  let cpath := cleanPath path
  let found := findPattern patterns cpath
  if exactMatch found cpath = false ∧ cpath.data.getLast? ≠ some '/' ∧
      exactMatch (findPattern patterns (cpath ++ "/")) (cpath ++ "/") = true then
    Routing.redirect (cpath ++ "/")
  else if cpath ≠ path then Routing.redirect cpath
  else
    match found with
    | some p => Routing.matched p
    | none => Routing.notFound

/-! ## Observations on traces -/

/-- The receivers of the provider-shutdown calls in a trace, in order. -/
def shutdownCalls (evs : List Event) : List String :=
  evs.filterMap fun e =>
    match e with
    | Event.shutdownCall recv _ _ => some recv
    | _ => none

/-- The context passed to each provider-shutdown call in a trace, in order. -/
def callContexts (evs : List Event) : List Context :=
  evs.filterMap fun e =>
    match e with
    | Event.shutdownCall _ ctx _ => some ctx
    | _ => none

/-- The value returned by each provider-shutdown call in a trace, in order. -/
def callResults (evs : List Event) : List (Option GoError) :=
  evs.filterMap fun e =>
    match e with
    | Event.shutdownCall _ _ r => some r
    | _ => none

/-- The contexts made by `context.WithTimeout` in a trace, in order. -/
def contextsMade (evs : List Event) : List Context :=
  evs.filterMap fun e =>
    match e with
    | Event.withTimeout ctx => some ctx
    | _ => none

/-- The messages printed through `log.Printf` in a trace, in order. -/
def logReports (evs : List Event) : List String :=
  evs.filterMap fun e =>
    match e with
    | Event.logPrintf msg => some msg
    | _ => none

/-- The construction steps attempted in a trace, in order. -/
def constructionSteps (evs : List Event) : List Event :=
  evs.filter fun e =>
    e = Event.resourceNew ∨ e = Event.stdouttraceNew ∨ e = Event.stdoutmetricNew

/-- The providers installed as process-wide defaults in a trace, in order. -/
def installedProviders (evs : List Event) : List String :=
  evs.filterMap fun e =>
    match e with
    | Event.setTracerProvider p => some p
    | Event.setMeterProvider p => some p
    | _ => none

/-- The operations of the spans started in a trace, in order. -/
def spansStarted (evs : List Event) : List String :=
  evs.filterMap fun e =>
    match e with
    | Event.spanStart operation => some operation
    | _ => none

/-- The number of times the measurements of a request were recorded in a
trace. -/
def measurements (evs : List Event) : Nat :=
  evs.count Event.recordMetrics

/-- The events of a trace that end the process or announce its end: the fatal
log calls and `os.Exit`. -/
def fatalEvents (evs : List Event) : List Event :=
  evs.filter fun e =>
    match e with
    | Event.logFatal _ => true
    | Event.logFatalf _ => true
    | Event.osExit _ => true
    | _ => false

/-- The route tags applied in a trace, in order. -/
def routeTags (evs : List Event) : List String :=
  evs.filterMap fun e =>
    match e with
    | Event.setRouteTag route => some route
    | _ => none

/-- The events a run added to the trace: those of `after` past the length of
`before`. -/
def newEvents (before after : World) : List Event :=
  after.trace.drop before.trace.length

/-- The world at program start: clock `t`, nothing declared, nothing done. -/
def World.init (t : Nat) : World :=
  ⟨t, 0, 0, fun _ => [], []⟩

/-! ## Sample environments -/

/-- A provider shutdown that succeeds at once. -/
def shutdownOk : Context → Nat → List Event → Option GoError × Nat :=
  fun _ _ _ => (none, 0)

/-- A provider shutdown that fails with the given message after `dt`
nanoseconds. -/
def shutdownFails (msg : String) (dt : Nat) : Context → Nat → List Event → Option GoError × Nat :=
  fun _ _ _ => (some (GoError.prim msg), dt)

/-- Every construction step succeeds and both providers shut down cleanly. -/
def envOk : Env := ⟨none, none, none, shutdownOk, shutdownOk⟩

/-- Every construction step succeeds; later the tracer provider fails to shut
down after 7 ns and the meter provider after 11 ns. -/
def envBothFail : Env :=
  ⟨none, none, none, shutdownFails "boom" 7, shutdownFails "bang" 11⟩

/-- The metric exporter cannot be built. -/
def envMetricFails : Env :=
  ⟨none, none, some (GoError.prim "stdoutmetric: unavailable"), shutdownOk, shutdownOk⟩

/-- The port is taken: the listener fails before any request is served. -/
def mainEnvPortTaken : MainEnv :=
  ⟨envOk, goRouter, [],
    some (GoError.prim "listen tcp :8080: bind: address already in use")⟩

/-! ## The loop of the shutdown closure -/

theorem emit_trace (w : World) (e : Event) : (w.emit e).trace = w.trace ++ [e] := rfl

/-- The loop adds one call event per registered function, in order, each with
the loop's context and nothing else; it leaves the variables untouched and
folds the returned values with `errors.Join`. -/
theorem shutdownLoop_spec (ctx : Context) (fns : List ShutdownFn) :
    ∀ (err : Option GoError) (w : World),
      ∃ evs : List Event,
        (shutdownLoop ctx fns err w).2.trace = w.trace ++ evs ∧
        shutdownCalls evs = fns.map ShutdownFn.recv ∧
        callContexts evs = fns.map (fun _ => ctx) ∧
        contextsMade evs = [] ∧
        logReports evs = [] ∧
        evs.length = fns.length ∧
        (shutdownLoop ctx fns err w).1 =
          (callResults evs).foldl (fun acc r => errorsJoin [acc, r]) err ∧
        (shutdownLoop ctx fns err w).2.vars = w.vars := by
  induction fns with
  | nil =>
      intro err w
      exact ⟨[], by simp [shutdownLoop], rfl, rfl, rfl, rfl, rfl, rfl, rfl⟩
  | cons fn fns ih =>
      intro err w
      obtain ⟨evs, h1, h2, h3, h4, h5, h6, h7, h8⟩ :=
        ih (errorsJoin [err, (fn.run ctx w.now w.trace).1])
          ((w.tick (fn.run ctx w.now w.trace).2).emit
            (Event.shutdownCall fn.recv ctx (fn.run ctx w.now w.trace).1))
      refine ⟨Event.shutdownCall fn.recv ctx (fn.run ctx w.now w.trace).1 :: evs,
        ?_, ?_, ?_, ?_, ?_, ?_, ?_, ?_⟩
      · simp only [shutdownLoop]
        rw [h1]
        simp [World.emit, World.tick]
      · simpa [shutdownCalls] using h2
      · simpa [callContexts] using h3
      · simpa [contextsMade] using h4
      · simpa [logReports] using h5
      · simp [h6]
      · simp only [shutdownLoop]
        rw [h7]
        simp [callResults]
      · simp only [shutdownLoop]
        rw [h8]
        rfl

/-- The events of one invocation of the shutdown closure: the making of its
context, one call per registered function, the report if the aggregate is
non-nil, and the deferred cancel. -/
theorem shutdown_events (ref : Nat) (w : World) :
    ∃ evs : List Event,
      newEvents w (shutdown ref w) =
        Event.withTimeout ⟨w.nextCtx + 1, some (w.now + 5 * timeSecond)⟩ :: evs ++
          (match (shutdownErr ref w).1 with
            | some e =>
                [Event.logPrintf ("OpenTelemetry shutdown encountered errors: " ++ e.Error)]
            | none => []) ++
          [Event.cancel ⟨w.nextCtx + 1, some (w.now + 5 * timeSecond)⟩] ∧
      shutdownCalls evs = (w.vars ref).map ShutdownFn.recv ∧
      callContexts evs =
        (w.vars ref).map (fun _ => ⟨w.nextCtx + 1, some (w.now + 5 * timeSecond)⟩) ∧
      contextsMade evs = [] ∧
      logReports evs = [] ∧
      evs.length = (w.vars ref).length ∧
      (shutdownErr ref w).1 =
        (callResults evs).foldl (fun acc r => errorsJoin [acc, r]) none ∧
      (shutdown ref w).vars = w.vars := by
  obtain ⟨evs, h1, h2, h3, h4, h5, h6, h7, h8⟩ :=
    shutdownLoop_spec (contextWithTimeout contextBackground (5 * timeSecond) w).1
      ((contextWithTimeout contextBackground (5 * timeSecond) w).2.vars ref) none
      (contextWithTimeout contextBackground (5 * timeSecond) w).2
  refine ⟨evs, ?_, h2, h3, h4, h5, h6, h7, ?_⟩
  · simp only [newEvents, shutdown, shutdownErr]
    cases hagg : (shutdownLoop (contextWithTimeout contextBackground (5 * timeSecond) w).1
        ((contextWithTimeout contextBackground (5 * timeSecond) w).2.vars ref) none
        (contextWithTimeout contextBackground (5 * timeSecond) w).2).1 with
    | none =>
        simp only [emit_trace, h1]
        simp [contextWithTimeout, contextBackground]
    | some e =>
        simp only [emit_trace, h1]
        simp [contextWithTimeout, contextBackground]
  · simp only [shutdown]
    cases hagg : (shutdownLoop (contextWithTimeout contextBackground (5 * timeSecond) w).1
        ((contextWithTimeout contextBackground (5 * timeSecond) w).2.vars ref) none
        (contextWithTimeout contextBackground (5 * timeSecond) w).2).1 with
    | none => simpa [World.emit] using h8
    | some e => simpa [World.emit] using h8

/-! ## The aggregate error -/

theorem errorsJoin_pair_none (r : Option GoError) :
    errorsJoin [none, r] = r.map (fun e => GoError.join [e]) := by
  cases r <;> simp [errorsJoin]

theorem errorsJoin_pair_some (a : GoError) (r : Option GoError) :
    errorsJoin [some a, r] = some (GoError.join (a :: r.toList)) := by
  cases r <;> simp [errorsJoin]

theorem leavesList_append (xs ys : List GoError) :
    GoError.leavesList (xs ++ ys) = GoError.leavesList xs ++ GoError.leavesList ys := by
  induction xs with
  | nil => simp [GoError.leavesList]
  | cons x xs ih => simp [GoError.leavesList, ih]

theorem ErrorRest_append (xs ys : List GoError) :
    GoError.ErrorRest (xs ++ ys) = GoError.ErrorRest xs ++ GoError.ErrorRest ys := by
  induction xs with
  | nil => simp [GoError.ErrorRest]
  | cons x xs ih => simp [GoError.ErrorRest, ih, String.append_assoc]

/-- Folding `errors.Join` from a non-nil error never gives nil; it keeps the
primitive messages in order and prints one further line per non-nil result. -/
theorem foldJoin_some (rs : List (Option GoError)) :
    ∀ a : GoError, ∃ e : GoError,
      rs.foldl (fun acc r => errorsJoin [acc, r]) (some a) = some e ∧
      e.leaves = a.leaves ++ GoError.leavesList (rs.filterMap id) ∧
      e.Error = a.Error ++ GoError.ErrorRest (rs.filterMap id) := by
  induction rs with
  | nil =>
      intro a
      exact ⟨a, rfl, by simp [GoError.leavesList], by simp [GoError.ErrorRest]⟩
  | cons r rs ih =>
      intro a
      obtain ⟨e, h1, h2, h3⟩ := ih (GoError.join (a :: r.toList))
      refine ⟨e, ?_, ?_, ?_⟩
      · simp only [List.foldl_cons, errorsJoin_pair_some]
        exact h1
      · rw [h2]
        cases r <;> simp [GoError.leaves, GoError.leavesList]
      · rw [h3]
        cases r <;> simp [GoError.Error, GoError.ErrorRest, String.append_assoc]

/-- Folding `errors.Join` from nil over the returned values: the result is nil
exactly when every value is nil, and it holds the primitive messages of the
non-nil values in order. -/
theorem foldJoin_none (rs : List (Option GoError)) :
    (rs.foldl (fun acc r => errorsJoin [acc, r]) none = none ↔ ∀ r ∈ rs, r = none) ∧
    (∀ e, rs.foldl (fun acc r => errorsJoin [acc, r]) none = some e →
      e.leaves = GoError.leavesList (rs.filterMap id) ∧
      e.Error = GoError.Error (GoError.join (rs.filterMap id))) := by
  induction rs with
  | nil => simp
  | cons r rs ih =>
      cases r with
      | none =>
          simp only [List.foldl_cons, errorsJoin_pair_none, Option.map_none']
          refine ⟨by simpa using ih.1, ?_⟩
          intro e he
          simpa using ih.2 e he
      | some a =>
          simp only [List.foldl_cons, errorsJoin_pair_none, Option.map_some']
          obtain ⟨e, h1, h2, h3⟩ := foldJoin_some rs (GoError.join [a])
          refine ⟨by simp [h1], ?_⟩
          intro e2 he2
          rw [h1] at he2
          cases he2
          refine ⟨?_, ?_⟩
          · rw [h2]; simp [GoError.leaves, GoError.leavesList]
          · rw [h3]; simp [GoError.Error, GoError.ErrorRest]

theorem intercalate_go_Error (es : List GoError) :
    ∀ acc : String, String.intercalate.go acc "\n" (es.map GoError.Error) =
      acc ++ GoError.ErrorRest es := by
  induction es with
  | nil => intro acc; simp [String.intercalate.go, GoError.ErrorRest]
  | cons e es ih =>
      intro acc
      simp [String.intercalate.go, GoError.ErrorRest, ih, String.append_assoc]

/-- The text of a `joinError` is the texts of its members, one per line. -/
theorem Error_join (es : List GoError) :
    (GoError.join es).Error = "\n".intercalate (es.map GoError.Error) := by
  cases es with
  | nil => simp [GoError.Error, String.intercalate]
  | cons e es => simp [GoError.Error, String.intercalate, intercalate_go_Error]

/-! ## The shutdown closure: claims -/

/-- C1: for every registry (every list of registered provider-shutdown
functions, whatever each of them returns), one invocation of the shutdown
closure calls the registered functions one after the other in registration
order, each exactly once: the receivers of the calls it makes are the
receivers of the registry, position by position, so there are exactly as many
calls as registered functions and none is skipped after a failure. -/
theorem shutdown_calls_every_registered_fn (c : ShutdownClosure) (w : World) :
    shutdownCalls (newEvents w (c.invoke w)) =
        (w.vars c.shutdownFns).map ShutdownFn.recv ∧
      (shutdownCalls (newEvents w (c.invoke w))).length = (w.vars c.shutdownFns).length ∧
      (callResults (newEvents w (c.invoke w))).length = (w.vars c.shutdownFns).length := by
  obtain ⟨evs, h1, h2, h3, h4, h5, h6, h7, h8⟩ := shutdown_events c.shutdownFns w
  have hc : shutdownCalls (newEvents w (c.invoke w)) =
      (w.vars c.shutdownFns).map ShutdownFn.recv := by
    have h := congrArg shutdownCalls h1
    rw [ShutdownClosure.invoke, h]
    cases (shutdownErr c.shutdownFns w).1 <;>
      simpa [shutdownCalls, List.filterMap_append] using h2
  have hr : (callResults (newEvents w (c.invoke w))).length = (w.vars c.shutdownFns).length := by
    have h := congrArg callResults h1
    have hl : (callResults evs).length = (callContexts evs).length := by
      clear h1 h2 h3 h4 h5 h6 h7 h
      induction evs with
      | nil => rfl
      | cons e es ih => cases e <;> simp_all [callResults, callContexts]
    rw [ShutdownClosure.invoke, h]
    cases (shutdownErr c.shutdownFns w).1 <;>
      simp [callResults, List.filterMap_append] <;>
      simpa [callResults, h3] using hl
  exact ⟨hc, by rw [hc, List.length_map], hr⟩

/-- What one invocation of the shutdown closure adds to the trace, seen
through each observation. -/
theorem shutdown_observed (ref : Nat) (w : World) :
    contextsMade (newEvents w (shutdown ref w)) =
        [⟨w.nextCtx + 1, some (w.now + 5 * timeSecond)⟩] ∧
      callContexts (newEvents w (shutdown ref w)) =
        (w.vars ref).map (fun _ => ⟨w.nextCtx + 1, some (w.now + 5 * timeSecond)⟩) ∧
      logReports (newEvents w (shutdown ref w)) =
        ((shutdownErr ref w).1.map
          (fun e => "OpenTelemetry shutdown encountered errors: " ++ e.Error)).toList ∧
      (shutdownErr ref w).1 =
        (callResults (newEvents w (shutdown ref w))).foldl
          (fun acc r => errorsJoin [acc, r]) none ∧
      (newEvents w (shutdown ref w)).getLast? =
        some (Event.cancel ⟨w.nextCtx + 1, some (w.now + 5 * timeSecond)⟩) := by
  obtain ⟨evs, h1, h2, h3, h4, h5, h6, h7, h8⟩ := shutdown_events ref w
  rw [h1]
  cases hagg : (shutdownErr ref w).1 with
  | none =>
      rw [hagg] at h7
      refine ⟨?_, ?_, ?_, ?_, ?_⟩
      · simpa [contextsMade, List.filterMap_append] using h4
      · simpa [callContexts, List.filterMap_append] using h3
      · simpa [logReports, List.filterMap_append] using h5
      · simpa [callResults, List.filterMap_append] using h7
      · exact List.getLast?_concat _
  | some e =>
      rw [hagg] at h7
      refine ⟨?_, ?_, ?_, ?_, ?_⟩
      · simpa [contextsMade, List.filterMap_append] using h4
      · simpa [callContexts, List.filterMap_append] using h3
      · simpa [logReports, List.filterMap_append] using h5
      · simpa [callResults, List.filterMap_append] using h7
      · exact List.getLast?_concat _

/-- The values the loop records are the values the registered functions
returned, position by position, each called with the loop's context; and the
loop neither logs fatally nor exits. -/
theorem shutdownLoop_results (ctx : Context) (fns : List ShutdownFn) :
    ∀ (err : Option GoError) (w : World),
      ∃ evs : List Event,
        (shutdownLoop ctx fns err w).2.trace = w.trace ++ evs ∧
        List.Forall₂ (fun fn r => ∃ now trace, (fn.run ctx now trace).1 = r) fns
          (callResults evs) ∧
        fatalEvents evs = [] := by
  induction fns with
  | nil =>
      intro err w
      exact ⟨[], by simp [shutdownLoop], List.Forall₂.nil, rfl⟩
  | cons fn fns ih =>
      intro err w
      obtain ⟨evs, h1, h2, h3⟩ :=
        ih (errorsJoin [err, (fn.run ctx w.now w.trace).1])
          ((w.tick (fn.run ctx w.now w.trace).2).emit
            (Event.shutdownCall fn.recv ctx (fn.run ctx w.now w.trace).1))
      refine ⟨Event.shutdownCall fn.recv ctx (fn.run ctx w.now w.trace).1 :: evs, ?_, ?_, ?_⟩
      · simp only [shutdownLoop]
        rw [h1]
        simp [World.emit, World.tick]
      · have hc : callResults
            (Event.shutdownCall fn.recv ctx (fn.run ctx w.now w.trace).1 :: evs) =
            (fn.run ctx w.now w.trace).1 :: callResults evs := by
          simp [callResults]
        rw [hc]
        exact List.Forall₂.cons ⟨w.now, w.trace, rfl⟩ h2
      · simpa [fatalEvents] using h3

/-- The values one invocation of the shutdown closure records are the values
the registered functions returned, in registration order, each called with
the invocation's context; and the invocation neither logs fatally nor
exits. -/
theorem shutdown_results (ref : Nat) (w : World) :
    List.Forall₂
        (fun fn r => ∃ now trace,
          (fn.run ⟨w.nextCtx + 1, some (w.now + 5000000000)⟩ now trace).1 = r)
        (w.vars ref) (callResults (newEvents w (shutdown ref w))) ∧
      fatalEvents (newEvents w (shutdown ref w)) = [] := by
  obtain ⟨evs, h1, h2, h3⟩ :=
    shutdownLoop_results (contextWithTimeout contextBackground (5 * timeSecond) w).1
      ((contextWithTimeout contextBackground (5 * timeSecond) w).2.vars ref) none
      (contextWithTimeout contextBackground (5 * timeSecond) w).2
  have h2b : List.Forall₂
      (fun fn r => ∃ now trace,
        (fn.run ⟨w.nextCtx + 1, some (w.now + 5000000000)⟩ now trace).1 = r)
      (w.vars ref) (callResults evs) := by
    simpa [contextWithTimeout, contextBackground, timeSecond] using h2
  have hnew : newEvents w (shutdown ref w) =
      Event.withTimeout ⟨w.nextCtx + 1, some (w.now + 5 * timeSecond)⟩ :: evs ++
        (match (shutdownErr ref w).1 with
          | some e =>
              [Event.logPrintf ("OpenTelemetry shutdown encountered errors: " ++ e.Error)]
          | none => []) ++
        [Event.cancel ⟨w.nextCtx + 1, some (w.now + 5 * timeSecond)⟩] := by
    simp only [newEvents, shutdown, shutdownErr]
    cases hagg : (shutdownLoop (contextWithTimeout contextBackground (5 * timeSecond) w).1
        ((contextWithTimeout contextBackground (5 * timeSecond) w).2.vars ref) none
        (contextWithTimeout contextBackground (5 * timeSecond) w).2).1 with
    | none =>
        simp only [emit_trace, h1]
        simp [contextWithTimeout, contextBackground]
    | some e =>
        simp only [emit_trace, h1]
        simp [contextWithTimeout, contextBackground]
  rw [hnew]
  cases (shutdownErr ref w).1 with
  | none =>
      refine ⟨?_, ?_⟩
      · simpa [callResults, List.filterMap_append] using h2b
      · simpa [fatalEvents, List.filter_append] using h3
  | some e =>
      refine ⟨?_, ?_⟩
      · simpa [callResults, List.filterMap_append] using h2b
      · simpa [fatalEvents, List.filter_append] using h3

/-- C9: for every registry, the values the shutdown closure folds are the
values its registered functions returned, in registration order, each called
with the invocation's context.  The aggregate error it builds from them is
nil exactly when every provider shutdown returned nil; it holds the primitive
errors of the non-nil results in registration order and its text lists the
non-nil results one per line; the closure prints its report through
`log.Printf` exactly when the aggregate is non-nil (once, with that text); and
in both cases it neither logs fatally nor exits the process: its body runs to
its end, where the deferred cancel is the last thing done. -/
theorem shutdown_aggregates_and_reports (c : ShutdownClosure) (w : World) :
    List.Forall₂
        (fun fn r => ∃ now trace,
          (fn.run ⟨w.nextCtx + 1, some (w.now + 5000000000)⟩ now trace).1 = r)
        (w.vars c.shutdownFns) (callResults (newEvents w (c.invoke w))) ∧
      ((shutdownErr c.shutdownFns w).1 = none ↔
        ∀ r ∈ callResults (newEvents w (c.invoke w)), r = none) ∧
      GoError.leavesList (shutdownErr c.shutdownFns w).1.toList =
        GoError.leavesList ((callResults (newEvents w (c.invoke w))).filterMap id) ∧
      ((shutdownErr c.shutdownFns w).1.map GoError.Error).getD "" =
        "\n".intercalate
          (((callResults (newEvents w (c.invoke w))).filterMap id).map GoError.Error) ∧
      logReports (newEvents w (c.invoke w)) =
        ((shutdownErr c.shutdownFns w).1.map
          (fun e => "OpenTelemetry shutdown encountered errors: " ++ e.Error)).toList ∧
      fatalEvents (newEvents w (c.invoke w)) = [] ∧
      (newEvents w (c.invoke w)).getLast? =
        some (Event.cancel ⟨w.nextCtx + 1, some (w.now + 5000000000)⟩) := by
  obtain ⟨_, _, h3, h4, h5⟩ := shutdown_observed c.shutdownFns w
  obtain ⟨hres, hfat⟩ := shutdown_results c.shutdownFns w
  obtain ⟨f1, f2⟩ := foldJoin_none (callResults (newEvents w (shutdown c.shutdownFns w)))
  rw [← h4] at f1 f2
  refine ⟨hres, f1, ?_, ?_, h3, hfat, ?_⟩
  · cases hagg : (shutdownErr c.shutdownFns w).1 with
    | none =>
        have hall := f1.mp hagg
        have : (callResults (newEvents w (c.invoke w))).filterMap id = [] := by
          rw [List.filterMap_eq_nil_iff]
          intro r hr
          rw [hall r hr]
          rfl
        rw [this]
        rfl
    | some e =>
        have := (f2 e hagg).1
        simpa [GoError.leavesList, ShutdownClosure.invoke] using this
  · cases hagg : (shutdownErr c.shutdownFns w).1 with
    | none =>
        have hall := f1.mp hagg
        have : (callResults (newEvents w (c.invoke w))).filterMap id = [] := by
          rw [List.filterMap_eq_nil_iff]
          intro r hr
          rw [hall r hr]
          rfl
        rw [this]
        rfl
    | some e =>
        have := (f2 e hagg).2
        rw [Error_join] at this
        simpa [ShutdownClosure.invoke] using this
  · simpa [timeSecond, ShutdownClosure.invoke] using h5

/-- C9, at a concrete input: after a successful bootstrap both providers fail
to shut down, with `boom` and `bang`; the closure calls both, prints one
report that lists both errors in registration order, and returns. -/
theorem shutdown_aggregates_and_reports_witness :
    callResults
        (newEvents (setupOTelSDK envBothFail (World.init 0)).2
          ((⟨0⟩ : ShutdownClosure).invoke (setupOTelSDK envBothFail (World.init 0)).2)) =
        [some (GoError.prim "boom"), some (GoError.prim "bang")] ∧
      logReports
        (newEvents (setupOTelSDK envBothFail (World.init 0)).2
          ((⟨0⟩ : ShutdownClosure).invoke (setupOTelSDK envBothFail (World.init 0)).2)) =
        ["OpenTelemetry shutdown encountered errors: boom\nbang"] ∧
      fatalEvents
        (newEvents (setupOTelSDK envBothFail (World.init 0)).2
          ((⟨0⟩ : ShutdownClosure).invoke (setupOTelSDK envBothFail (World.init 0)).2)) =
        [] :=
  ⟨by decide,
    (shutdown_aggregates_and_reports ⟨0⟩
      (setupOTelSDK envBothFail (World.init 0)).2).2.2.2.2.1.trans (by decide),
    (shutdown_aggregates_and_reports ⟨0⟩
      (setupOTelSDK envBothFail (World.init 0)).2).2.2.2.2.2.1⟩

/-- C10: each invocation of the shutdown closure makes exactly one context,
whose deadline is 5 seconds (5000000000 ns) after the clock reading at the
start of the invocation, and every registered provider-shutdown function is
called with that same context, however long the earlier calls took: the 5
seconds are one budget shared by all providers. -/
theorem shutdown_single_shared_deadline (c : ShutdownClosure) (w : World) :
    contextsMade (newEvents w (c.invoke w)) =
        [⟨w.nextCtx + 1, some (w.now + 5000000000)⟩] ∧
      callContexts (newEvents w (c.invoke w)) =
        List.replicate (w.vars c.shutdownFns).length
          ⟨w.nextCtx + 1, some (w.now + 5000000000)⟩ := by
  obtain ⟨h1, h2, _⟩ := shutdown_observed c.shutdownFns w
  refine ⟨by simpa [timeSecond, ShutdownClosure.invoke] using h1, ?_⟩
  rw [ShutdownClosure.invoke, h2]
  simp [timeSecond, List.map_const']

/-! ## `setupOTelSDK`: claims -/

/-- A run that only extends the trace added exactly the extension. -/
theorem newEvents_of_trace (before after : World) (evs : List Event)
    (h : after.trace = before.trace ++ evs) : newEvents before after = evs := by
  simp [newEvents, h]

/-- One invocation of the shutdown closure only extends the trace. -/
theorem shutdown_trace (ref : Nat) (w : World) :
    (shutdown ref w).trace = w.trace ++ newEvents w (shutdown ref w) := by
  obtain ⟨evs, h1, _⟩ :=
    shutdownLoop_spec (contextWithTimeout contextBackground (5 * timeSecond) w).1
      ((contextWithTimeout contextBackground (5 * timeSecond) w).2.vars ref) none
      (contextWithTimeout contextBackground (5 * timeSecond) w).2
  have hp : ∃ xs, (shutdown ref w).trace = w.trace ++ xs := by
    simp only [shutdown]
    cases (shutdownLoop (contextWithTimeout contextBackground (5 * timeSecond) w).1
        ((contextWithTimeout contextBackground (5 * timeSecond) w).2.vars ref) none
        (contextWithTimeout contextBackground (5 * timeSecond) w).2).1 with
    | none =>
        simp only [emit_trace, h1]
        apply Exists.intro
        · simp only [contextWithTimeout, List.append_assoc]
          rfl
    | some e =>
        simp only [emit_trace, h1]
        apply Exists.intro
        · simp only [contextWithTimeout, List.append_assoc]
          rfl
  obtain ⟨xs, hx⟩ := hp
  rw [newEvents_of_trace w (shutdown ref w) xs hx, hx]

/-- The calls of one invocation are the receivers of the registry, and the
registry is left as it was. -/
theorem shutdown_calls (ref : Nat) (w : World) :
    shutdownCalls (newEvents w (shutdown ref w)) = (w.vars ref).map ShutdownFn.recv ∧
      (shutdown ref w).vars = w.vars := by
  obtain ⟨evs, h1, h2, _, _, _, _, _, h8⟩ := shutdown_events ref w
  refine ⟨?_, h8⟩
  rw [h1]
  cases (shutdownErr ref w).1 <;> simpa [shutdownCalls, List.filterMap_append] using h2

/-- The registry and the trace after `setupOTelSDK`, for each way it returns. -/
theorem setupOTelSDK_cases (env : Env) (w : World) :
    ((setupOTelSDK env w).2.vars w.nextVar =
        if env.resourceNew.isSome ∨ env.stdouttraceNew.isSome then []
        else if env.stdoutmetricNew.isSome then [⟨"tp", env.tpShutdown⟩]
        else [⟨"tp", env.tpShutdown⟩, ⟨"mp", env.mpShutdown⟩]) ∧
      newEvents w (setupOTelSDK env w).2 =
        (if env.resourceNew.isSome then [Event.resourceNew]
        else if env.stdouttraceNew.isSome then
          [Event.resourceNew, Event.setTextMapPropagator, Event.stdouttraceNew]
        else if env.stdoutmetricNew.isSome then
          [Event.resourceNew, Event.setTextMapPropagator, Event.stdouttraceNew,
            Event.newTracerProvider 1000000000, Event.setTracerProvider "tp",
            Event.stdoutmetricNew]
        else
          [Event.resourceNew, Event.setTextMapPropagator, Event.stdouttraceNew,
            Event.newTracerProvider 1000000000, Event.setTracerProvider "tp",
            Event.stdoutmetricNew, Event.newMeterProvider 3000000000,
            Event.setMeterProvider "mp"]) := by
  cases h1 : env.resourceNew with
  | some e => simp [setupOTelSDK, h1, newEvents, World.emit, World.declare]
  | none =>
      cases h2 : env.stdouttraceNew with
      | some e => simp [setupOTelSDK, h1, h2, newEvents, World.emit, World.declare]
      | none =>
          cases h3 : env.stdoutmetricNew with
          | some e =>
              simp [setupOTelSDK, h1, h2, h3, newEvents, World.emit, World.declare,
                World.append, timeSecond]
          | none =>
              simp [setupOTelSDK, h1, h2, h3, newEvents, World.emit, World.declare,
                World.append, timeSecond]

/-- The error `setupOTelSDK` returns is the first non-nil one of its steps. -/
theorem setupOTelSDK_err_eq (env : Env) (w : World) :
    (setupOTelSDK env w).1.err =
      env.resourceNew.or (env.stdouttraceNew.or env.stdoutmetricNew) := by
  cases h1 : env.resourceNew <;> cases h2 : env.stdouttraceNew <;>
    cases h3 : env.stdoutmetricNew <;> simp [setupOTelSDK, h1, h2, h3]

/-- C3: `setupOTelSDK` returns the error of the first of its three
construction steps that fails (resource, trace exporter, metric exporter), so
its error is non-nil exactly when one of them fails; the construction steps it
attempts stop at the failing one; and in every case it returns a non-nil
shutdown closure, the one that captured the registry declared by this call. -/
theorem setupOTelSDK_returns_first_failure (env : Env) (w : World) :
    (setupOTelSDK env w).1.err =
        env.resourceNew.or (env.stdouttraceNew.or env.stdoutmetricNew) ∧
      ((setupOTelSDK env w).1.err ≠ none ↔
        (env.resourceNew ≠ none ∨ env.stdouttraceNew ≠ none ∨ env.stdoutmetricNew ≠ none)) ∧
      constructionSteps (newEvents w (setupOTelSDK env w).2) =
        (if env.resourceNew.isSome then [Event.resourceNew]
        else if env.stdouttraceNew.isSome then [Event.resourceNew, Event.stdouttraceNew]
        else [Event.resourceNew, Event.stdouttraceNew, Event.stdoutmetricNew]) ∧
      (setupOTelSDK env w).1.shutdown = some ⟨w.nextVar⟩ := by
  obtain ⟨_, hev⟩ := setupOTelSDK_cases env w
  rw [hev]
  cases h1 : env.resourceNew with
  | some e => simp [setupOTelSDK, h1, World.declare, constructionSteps]
  | none =>
      cases h2 : env.stdouttraceNew with
      | some e => simp [setupOTelSDK, h1, h2, World.declare, constructionSteps]
      | none =>
          cases h3 : env.stdoutmetricNew with
          | some e => simp [setupOTelSDK, h1, h2, h3, World.declare, constructionSteps]
          | none => simp [setupOTelSDK, h1, h2, h3, World.declare, constructionSteps]

/-- C4: at every return point of `setupOTelSDK` the registry declared by the
call holds one entry for each provider the call installed as a process-wide
default, in the order of installation, and nothing else: it is empty when the
resource or the trace exporter failed, it is `[tp.Shutdown]` when the metric
exporter failed, and `[tp.Shutdown, mp.Shutdown]` after a successful
bootstrap. -/
theorem setupOTelSDK_registry_matches_installed (env : Env) (w : World) :
    ((setupOTelSDK env w).2.vars w.nextVar).map ShutdownFn.recv =
        installedProviders (newEvents w (setupOTelSDK env w).2) ∧
      (setupOTelSDK env w).2.vars w.nextVar =
        (if env.resourceNew.isSome ∨ env.stdouttraceNew.isSome then []
        else if env.stdoutmetricNew.isSome then [⟨"tp", env.tpShutdown⟩]
        else [⟨"tp", env.tpShutdown⟩, ⟨"mp", env.mpShutdown⟩]) := by
  obtain ⟨hreg, hev⟩ := setupOTelSDK_cases env w
  refine ⟨?_, hreg⟩
  rw [hreg, hev]
  cases env.resourceNew <;> cases env.stdouttraceNew <;> cases env.stdoutmetricNew <;>
    simp [installedProviders]

/-- C2: when a construction step of `setupOTelSDK` fails, the closure it
returned, invoked on the world the call left, shuts down exactly the providers
the call installed before failing: none when the resource or the trace
exporter failed, the tracer provider once and no meter provider when the
metric exporter failed.  The closure reads the registry when it is invoked, so
it sees the entries appended after it was made. -/
theorem shutdown_after_failed_setup (env : Env) (w : World) (c : ShutdownClosure)
    (hc : (setupOTelSDK env w).1.shutdown = some c)
    (herr : (setupOTelSDK env w).1.err ≠ none) :
    shutdownCalls (newEvents (setupOTelSDK env w).2 (c.invoke (setupOTelSDK env w).2)) =
        installedProviders (newEvents w (setupOTelSDK env w).2) ∧
      shutdownCalls (newEvents (setupOTelSDK env w).2 (c.invoke (setupOTelSDK env w).2)) =
        (if env.resourceNew.isSome ∨ env.stdouttraceNew.isSome then [] else ["tp"]) := by
  obtain ⟨hreg, hev⟩ := setupOTelSDK_cases env w
  have hc2 : c = ⟨w.nextVar⟩ := by
    have : (setupOTelSDK env w).1.shutdown = some ⟨w.nextVar⟩ := by
      cases h1 : env.resourceNew <;> cases h2 : env.stdouttraceNew <;>
        cases h3 : env.stdoutmetricNew <;> simp [setupOTelSDK, h1, h2, h3, World.declare]
    rw [this] at hc
    exact (Option.some.inj hc).symm
  subst hc2
  have hcalls := (shutdown_calls w.nextVar (setupOTelSDK env w).2).1
  rw [ShutdownClosure.invoke, hcalls, hreg, hev]
  have hsome : env.resourceNew ≠ none ∨ env.stdouttraceNew ≠ none ∨ env.stdoutmetricNew ≠ none := by
    by_contra hn
    push_neg at hn
    apply herr
    simp [setupOTelSDK, hn.1, hn.2.1, hn.2.2]
  cases h1 : env.resourceNew <;> cases h2 : env.stdouttraceNew <;>
    cases h3 : env.stdoutmetricNew <;> simp_all [installedProviders]

/-- C2, at a concrete input: the metric exporter cannot be built, and the
closure returned shuts down the tracer provider and nothing else. -/
theorem shutdown_after_failed_setup_witness :
    shutdownCalls
        (newEvents (setupOTelSDK envMetricFails (World.init 0)).2
          ((⟨0⟩ : ShutdownClosure).invoke (setupOTelSDK envMetricFails (World.init 0)).2)) =
      ["tp"] :=
  (shutdown_after_failed_setup envMetricFails (World.init 0) ⟨0⟩ rfl (by decide)).2

/-- C8, refuted as stated: after a successful bootstrap from the initial
world, the second invocation of the shutdown closure calls both providers
again, so that over the two invocations each provider is shut down twice. -/
theorem shutdown_second_invocation_calls_again :
    shutdownCalls
        (newEvents ((⟨0⟩ : ShutdownClosure).invoke (setupOTelSDK envOk (World.init 0)).2)
          ((⟨0⟩ : ShutdownClosure).invoke
            ((⟨0⟩ : ShutdownClosure).invoke (setupOTelSDK envOk (World.init 0)).2))) =
        ["tp", "mp"] ∧
      shutdownCalls
        (newEvents (setupOTelSDK envOk (World.init 0)).2
          ((⟨0⟩ : ShutdownClosure).invoke
            ((⟨0⟩ : ShutdownClosure).invoke (setupOTelSDK envOk (World.init 0)).2))) =
        ["tp", "mp", "tp", "mp"] := by
  decide

/-- C8, amended: the shutdown closure has no guard against being invoked
again.  For every registry state an invocation leaves the registry as it was,
and a second invocation calls every registered function once more, in
registration order, so two invocations shut every registered provider down
twice. -/
theorem shutdown_not_guarded_against_reinvocation (c : ShutdownClosure) (w : World) :
    (c.invoke w).vars = w.vars ∧
      shutdownCalls (newEvents (c.invoke w) (c.invoke (c.invoke w))) =
        (w.vars c.shutdownFns).map ShutdownFn.recv ∧
      shutdownCalls (newEvents w (c.invoke (c.invoke w))) =
        (w.vars c.shutdownFns).map ShutdownFn.recv ++
          (w.vars c.shutdownFns).map ShutdownFn.recv := by
  obtain ⟨h1, hv⟩ := shutdown_calls c.shutdownFns w
  obtain ⟨h2, _⟩ := shutdown_calls c.shutdownFns (shutdown c.shutdownFns w)
  rw [hv] at h2
  refine ⟨hv, h2, ?_⟩
  have ht : (shutdown c.shutdownFns (shutdown c.shutdownFns w)).trace =
      w.trace ++ (newEvents w (shutdown c.shutdownFns w) ++
        newEvents (shutdown c.shutdownFns w)
          (shutdown c.shutdownFns (shutdown c.shutdownFns w))) := by
    rw [shutdown_trace c.shutdownFns (shutdown c.shutdownFns w)]
    rw [← List.append_assoc, ← shutdown_trace c.shutdownFns w]
  simp only [ShutdownClosure.invoke]
  rw [newEvents_of_trace _ _ _ ht]
  simp only [shutdownCalls, List.filterMap_append] at h1 h2 ⊢
  rw [h1, h2]

/-! ## `main`: the routes -/

/-- The handlers `main` registered, looked up by pattern. -/
theorem mainMux_lookup (pattern : String) (h : pattern ∈ mainMux.patterns) :
    mainMux.entries.lookup pattern =
      some (Handler.withRouteTag pattern (Handler.handlerFunc "rolldice")) := by
  have hp : pattern = "/rolldice/" ∨ pattern = "/rolldice/{player}" := by
    simpa [mainMux, handleFunc, ServeMux.Handle, ServeMux.patterns, NewServeMux] using h
  rcases hp with rfl | rfl <;> decide

/-- C5: every pattern registered through `handleFunc` is registered with the
business handler wrapped in a route tag equal to that pattern; the
multiplexer of `main` holds the fixed and the parameterized route of
`rolldice`, each under its own pattern; and a request the multiplexer
dispatches to a registered pattern gets that pattern as its one route tag,
whatever its path, before the business handler is called with the request. -/
theorem handleFunc_tags_route_with_pattern (router : Router) (path pattern : String)
    (w : World) (hm : router mainMux.patterns path = Routing.matched pattern)
    (hreg : pattern ∈ mainMux.patterns) :
    (∀ (p fn : String) (mux : ServeMux),
        (handleFunc p fn mux).entries =
          mux.entries ++ [(p, Handler.withRouteTag p (Handler.handlerFunc fn))]) ∧
      mainMux.entries =
        [("/rolldice/", Handler.withRouteTag "/rolldice/" (Handler.handlerFunc "rolldice")),
          ("/rolldice/{player}",
            Handler.withRouteTag "/rolldice/{player}" (Handler.handlerFunc "rolldice"))] ∧
      routeTags (newEvents w (mainHandler.ServeHTTP router path w)) = [pattern] ∧
      newEvents w (mainHandler.ServeHTTP router path w) =
        [Event.spanStart "/", Event.setRouteTag pattern, Event.handlerCall "rolldice" path,
          Event.recordMetrics, Event.spanEnd] := by
  have hev : newEvents w (mainHandler.ServeHTTP router path w) =
      [Event.spanStart "/", Event.setRouteTag pattern, Event.handlerCall "rolldice" path,
        Event.recordMetrics, Event.spanEnd] := by
    apply newEvents_of_trace
    have hm2 : router mainHandler.handler.patterns path = Routing.matched pattern := hm
    have hl : mainHandler.handler.entries.lookup pattern =
        some (Handler.withRouteTag pattern (Handler.handlerFunc "rolldice")) :=
      mainMux_lookup pattern hreg
    simp only [OtelHandler.ServeHTTP, ServeMux.ServeHTTP, hm2, hl, Handler.ServeHTTP,
      emit_trace, List.append_assoc]
    rfl
  refine ⟨fun p fn mux => rfl, rfl, ?_, hev⟩
  rw [hev]
  rfl

/-- C5, at a concrete input: with the router of `net/http`, a request for
`/rolldice/alice` is tagged with the pattern of the parameterized route, not
with its path. -/
theorem handleFunc_tags_route_with_pattern_witness :
    routeTags
        (newEvents (World.init 0)
          (mainHandler.ServeHTTP goRouter "/rolldice/alice" (World.init 0))) =
      ["/rolldice/{player}"] :=
  (handleFunc_tags_route_with_pattern goRouter "/rolldice/alice" "/rolldice/{player}"
    (World.init 0) (by decide) (by decide)).2.2.1

/-- C7, refuted as stated: a request for `/healthz` matches no pattern of
`main`; it is served inside a span and its measurements are recorded, but no
route tag is applied, so neither `unmatched` nor `404` labels it. -/
theorem unmatched_request_has_no_route_tag :
    goRouter mainMux.patterns "/healthz" = Routing.notFound ∧
      newEvents (World.init 0) (mainHandler.ServeHTTP goRouter "/healthz" (World.init 0)) =
        [Event.spanStart "/", Event.notFound, Event.recordMetrics, Event.spanEnd] ∧
      routeTags
        (newEvents (World.init 0) (mainHandler.ServeHTTP goRouter "/healthz" (World.init 0))) =
        [] := by
  decide

/-- C7, amended: a request that the multiplexer dispatches to no registered
pattern is still served inside one span of the outer handler, named by the
operation `/`, and its measurements are still recorded once; no route tag is
applied to it. -/
theorem unmatched_request_still_instrumented (router : Router) (path : String) (w : World)
    (hm : ∀ p, router mainMux.patterns path ≠ Routing.matched p) :
    spansStarted (newEvents w (mainHandler.ServeHTTP router path w)) = ["/"] ∧
      measurements (newEvents w (mainHandler.ServeHTTP router path w)) = 1 ∧
      routeTags (newEvents w (mainHandler.ServeHTTP router path w)) = [] := by
  have hm2 : ∀ p, router mainHandler.handler.patterns path ≠ Routing.matched p := hm
  cases hr : router mainHandler.handler.patterns path with
  | matched p => exact absurd hr (hm2 p)
  | redirect location =>
      have hev : newEvents w (mainHandler.ServeHTTP router path w) =
          [Event.spanStart "/", Event.redirect location, Event.recordMetrics,
            Event.spanEnd] := by
        apply newEvents_of_trace
        simp only [OtelHandler.ServeHTTP, ServeMux.ServeHTTP, hr, emit_trace,
          List.append_assoc]
        rfl
      rw [hev]
      exact ⟨rfl, by simp [measurements], rfl⟩
  | notFound =>
      have hev : newEvents w (mainHandler.ServeHTTP router path w) =
          [Event.spanStart "/", Event.notFound, Event.recordMetrics, Event.spanEnd] := by
        apply newEvents_of_trace
        simp only [OtelHandler.ServeHTTP, ServeMux.ServeHTTP, hr, emit_trace,
          List.append_assoc]
        rfl
      rw [hev]
      exact ⟨rfl, by simp [measurements], rfl⟩

/-- C7 amended, at a concrete input: a request for `/rolldice`, which matches
no pattern of `main` and is redirected to `/rolldice/`, still gets its span
and its measurements, and no route tag. -/
theorem unmatched_request_still_instrumented_witness :
    goRouter mainMux.patterns "/rolldice" = Routing.redirect "/rolldice/" ∧
      spansStarted
          (newEvents (World.init 0)
            (mainHandler.ServeHTTP goRouter "/rolldice" (World.init 0))) = ["/"] ∧
      measurements
          (newEvents (World.init 0)
            (mainHandler.ServeHTTP goRouter "/rolldice" (World.init 0))) = 1 ∧
      routeTags
          (newEvents (World.init 0)
            (mainHandler.ServeHTTP goRouter "/rolldice" (World.init 0))) = [] :=
  ⟨by decide,
    unmatched_request_still_instrumented goRouter "/rolldice" (World.init 0)
      (fun p h => Routing.noConfusion
        ((show goRouter mainMux.patterns "/rolldice" = Routing.redirect "/rolldice/" from by
          decide).symm.trans h))⟩

/-! ## `main`: the deferred shutdown -/

/-- The call `setupOTelSDK` only extends the trace. -/
theorem setupOTelSDK_trace (env : Env) (w : World) :
    (setupOTelSDK env w).2.trace = w.trace ++ newEvents w (setupOTelSDK env w).2 := by
  have hp : ∃ xs, (setupOTelSDK env w).2.trace = w.trace ++ xs := by
    cases h1 : env.resourceNew <;> cases h2 : env.stdouttraceNew <;>
      cases h3 : env.stdoutmetricNew <;>
      (apply Exists.intro
       · simp only [setupOTelSDK, h1, h2, h3, World.emit, World.declare, World.append,
           List.append_assoc]
         rfl)
  obtain ⟨xs, hx⟩ := hp
  rw [newEvents_of_trace w _ xs hx, hx]

/-- Serving a request with a handler of `main` makes no context and calls no
provider shutdown. -/
theorem Handler_ServeHTTP_quiet (h : Handler) :
    ∀ (path : String) (w : World), ∃ evs : List Event,
      (h.ServeHTTP path w).trace = w.trace ++ evs ∧
      contextsMade evs = [] ∧ shutdownCalls evs = [] := by
  induction h with
  | handlerFunc fn =>
      intro path w
      exact ⟨[Event.handlerCall fn path], rfl, rfl, rfl⟩
  | withRouteTag route h ih =>
      intro path w
      obtain ⟨evs, h1, h2, h3⟩ := ih path (w.emit (Event.setRouteTag route))
      refine ⟨Event.setRouteTag route :: evs, ?_, ?_, ?_⟩
      · simp only [Handler.ServeHTTP, h1, emit_trace, List.append_assoc]
        rfl
      · simpa [contextsMade] using h2
      · simpa [shutdownCalls] using h3

/-- Serving a request with the instrumented multiplexer makes no context and
calls no provider shutdown. -/
theorem OtelHandler_ServeHTTP_quiet (router : Router) (h : OtelHandler) (path : String)
    (w : World) :
    ∃ evs : List Event,
      (h.ServeHTTP router path w).trace = w.trace ++ evs ∧
      contextsMade evs = [] ∧ shutdownCalls evs = [] := by
  have hmux : ∃ evs : List Event,
      (h.handler.ServeHTTP router path (w.emit (Event.spanStart h.operation))).trace =
        (w.emit (Event.spanStart h.operation)).trace ++ evs ∧
      contextsMade evs = [] ∧ shutdownCalls evs = [] := by
    cases hr : router h.handler.patterns path with
    | notFound =>
        simp only [ServeMux.ServeHTTP, hr]
        exact ⟨[Event.notFound], rfl, rfl, rfl⟩
    | redirect location =>
        simp only [ServeMux.ServeHTTP, hr]
        exact ⟨[Event.redirect location], rfl, rfl, rfl⟩
    | matched p =>
        cases hl : h.handler.entries.lookup p with
        | none =>
            simp only [ServeMux.ServeHTTP, hr, hl]
            exact ⟨[Event.notFound], rfl, rfl, rfl⟩
        | some hd =>
            simp only [ServeMux.ServeHTTP, hr, hl]
            exact Handler_ServeHTTP_quiet hd path _
  obtain ⟨evs, h1, h2, h3⟩ := hmux
  refine ⟨Event.spanStart h.operation :: evs ++ [Event.recordMetrics, Event.spanEnd],
    ?_, ?_, ?_⟩
  · simp only [OtelHandler.ServeHTTP, emit_trace, h1, List.append_assoc]
    rfl
  · simpa [contextsMade, List.filterMap_append] using h2
  · simpa [shutdownCalls, List.filterMap_append] using h3

/-- Serving any number of requests makes no context and calls no provider
shutdown. -/
theorem serveAll_quiet (router : Router) (h : OtelHandler) (paths : List String) :
    ∀ w : World, ∃ evs : List Event,
      (serveAll router h paths w).trace = w.trace ++ evs ∧
      contextsMade evs = [] ∧ shutdownCalls evs = [] := by
  induction paths with
  | nil =>
      intro w
      exact ⟨[], by simp [serveAll], rfl, rfl⟩
  | cons path paths ih =>
      intro w
      obtain ⟨e1, a1, a2, a3⟩ := OtelHandler_ServeHTTP_quiet router h path w
      obtain ⟨e2, b1, b2, b3⟩ := ih (h.ServeHTTP router path w)
      refine ⟨e1 ++ e2, ?_, ?_, ?_⟩
      · simp only [serveAll, b1, a1, List.append_assoc]
      · simp only [contextsMade, List.filterMap_append] at a2 b2 ⊢
        rw [a2, b2]
        rfl
      · simp only [shutdownCalls, List.filterMap_append] at a3 b3 ⊢
        rw [a3, b3]
        rfl

/-- C6, what the code does: after a successful bootstrap `main` defers the
shutdown closure, but its body ends in `log.Fatal`, which ends the process
through `os.Exit(1)`; the deferred call is never run.  Whatever requests were
served and whatever error the listener returned, the run of `main` makes no
context and calls no provider shutdown: the closure is invoked zero times
before the process exits with code 1. -/
theorem main_exits_without_shutdown (env : MainEnv) (w : World)
    (hok : (setupOTelSDK env.setup w).1.err = none) :
    (mainBody env w).1 = Flow.exited 1 ∧
      (mainBody env w).2.1 = [⟨w.nextVar⟩] ∧
      contextsMade (newEvents w (main env w)) = [] ∧
      shutdownCalls (newEvents w (main env w)) = [] ∧
      (newEvents w (main env w)).getLast? = some (Event.osExit 1) := by
  obtain ⟨hr, ht, hm⟩ : env.setup.resourceNew = none ∧ env.setup.stdouttraceNew = none ∧
      env.setup.stdoutmetricNew = none := by
    have h := setupOTelSDK_err_eq env.setup w
    rw [hok] at h
    cases h1 : env.setup.resourceNew with
    | some e => rw [h1] at h; simp at h
    | none =>
        cases h2 : env.setup.stdouttraceNew with
        | some e => rw [h1, h2] at h; simp at h
        | none =>
            cases h3 : env.setup.stdoutmetricNew with
            | some e => rw [h1, h2, h3] at h; simp at h
            | none => exact ⟨rfl, rfl, rfl⟩
  obtain ⟨_, hev⟩ := setupOTelSDK_cases env.setup w
  simp only [hr, ht, hm, Option.isSome_none, Bool.false_eq_true, if_false] at hev
  have hst := setupOTelSDK_trace env.setup w
  rw [hev] at hst
  have hsd : (setupOTelSDK env.setup w).1.shutdown = some ⟨w.nextVar⟩ := by
    simp [setupOTelSDK, hr, ht, hm, World.declare]
  obtain ⟨evs, s1, s2, s3⟩ := serveAll_quiet env.router mainHandler env.requests
    (((setupOTelSDK env.setup w).2.emit (Event.logPrintln "Serving on :8080")).emit
      (Event.listenAndServe ":8080"))
  have hbody : (mainBody env w).1 = Flow.exited 1 ∧ (mainBody env w).2.1 = [⟨w.nextVar⟩] := by
    simp [mainBody, hok, hsd]
  have htrace : (main env w).trace = w.trace ++
      ([Event.resourceNew, Event.setTextMapPropagator, Event.stdouttraceNew,
          Event.newTracerProvider 1000000000, Event.setTracerProvider "tp",
          Event.stdoutmetricNew, Event.newMeterProvider 3000000000,
          Event.setMeterProvider "mp", Event.logPrintln "Serving on :8080",
          Event.listenAndServe ":8080"] ++ evs ++
        [Event.logFatal (errorText env.listenErr)]) ++ [Event.osExit 1] := by
    simp only [main, mainBody, hok, ListenAndServe, emit_trace, s1, hst, List.append_assoc]
    rfl
  rw [newEvents_of_trace w (main env w) _ (by rw [htrace, List.append_assoc])]
  refine ⟨hbody.1, hbody.2, ?_, ?_, List.getLast?_concat _⟩
  · simpa [contextsMade, List.filterMap_append] using s2
  · simpa [shutdownCalls, List.filterMap_append] using s3

/-- C6, at the concrete input where the port is taken: the process exits with
code 1 and no provider was shut down. -/
theorem main_exits_without_shutdown_witness :
    shutdownCalls (newEvents (World.init 0) (main mainEnvPortTaken (World.init 0))) = [] ∧
      (newEvents (World.init 0) (main mainEnvPortTaken (World.init 0))).getLast? =
        some (Event.osExit 1) :=
  ⟨(main_exits_without_shutdown mainEnvPortTaken (World.init 0) rfl).2.2.2.1,
    (main_exits_without_shutdown mainEnvPortTaken (World.init 0) rfl).2.2.2.2⟩

end OTelExample
